import Mathlib

/-!
Shallow embedding of the per-session notification poller from `src/index.ts`
of the `ktalk-test-push` repository, together with theorems settling the
frozen claims about it.

Conventions of the embedding:
* JS numbers that only ever hold integers are modelled as `Int`; the one
  place where `NaN` can flow into state (`Number(ctx.match)` in the
  interval command) uses the explicit `JsNum` type.
* `string | null` fields are `Option String`; JS truthiness of such a
  field (`!referer`) is `isFalsyOptStr` (both `null` and `""` are falsy).
* Thrown JS values are `Thrown`; `Error` instances are `JsError`.
* The event emitter is modelled by returning the list of events an
  operation emits, in emission order.
* The network is an oracle argument `FetchResult`; the list of
  `HttpRequest`s an operation returns records the requests it issued.
-/

/-- JS number that may be NaN (result of `Number(string)`). -/
inductive JsNum where
  | nan
  | num (n : Int)
deriving DecidableEq, Repr

/-- Model of `Number.isNaN`. -/
def jsIsNaN : JsNum → Bool
  | .nan => true
  | .num _ => false

/-- Model of the JS comparison `x > 0` (false when `x` is NaN). -/
def jsGtZero : JsNum → Bool
  | .nan => false
  | .num n => n > 0

/-- JS truthiness test for a `string | null` field: `!x` is true for
`null` and for the empty string. -/
def isFalsyOptStr : Option String → Bool
  | none => true
  | some s => s == ""

/-- `type NotificationsCount = { rooms_count: number }`. -/
structure NotificationsCount where
  rooms_count : Int
deriving DecidableEq, Repr

/-- The `options` sub-object of `NotifierState`. -/
structure NotifierOptions where
  token : Option String
  referer : Option String
  interval : JsNum
  allowZeroMessages : Bool
  polling : Bool
  pollingOnBoot : Bool
deriving DecidableEq, Repr

/-- `type NotifierState = { count; options }`. -/
structure NotifierState where
  count : NotificationsCount
  options : NotifierOptions
deriving DecidableEq, Repr

/-- An `Error` instance: either the `InvalidError` subclass (which stores
its `entity` and has message `entity + " must be set"`) or a plain
`new Error(message)`.  Neither class overrides `name`, so both have
`name = "Error"` at runtime. -/
inductive JsError where
  | invalidError (entity : String)
  | plainError (message : String)
deriving DecidableEq, Repr

/-- A thrown JS value: an `Error` object or any other value, recorded by
its `String(input)` rendering. -/
inductive Thrown where
  | errObj (e : JsError)
  | nonError (str : String)
deriving DecidableEq, Repr

/-- `ensureError`: pass an `Error` through, wrap anything else as
`new Error(String(input))`. -/
def ensureError : Thrown → JsError
  | .errObj e => e
  | .nonError s => .plainError s

/-- The `message` property of an `Error`. -/
def errorMessage : JsError → String
  | .invalidError entity => entity ++ " must be set"
  | .plainError m => m

/-- The `name` property: neither class sets it, so it is `"Error"`. -/
def errorName : JsError → String := fun _ => "Error"

/-- `formatError`: the template `` `${error.name}: ${error.message}` ``. -/
def formatError (e : JsError) : String :=
  errorName e ++ ": " ++ errorMessage e

def BASE_ENDPOINT : String := "https://chat.ktalk.ru"

def NOTIFICATION_COUNT_PATH : String :=
  "_matrix/client/strangler/api/v1/talk_notifications"

/-- The typed events of `EventMap`, in the order they can be emitted. -/
inductive Event where
  | stop
  | start
  | error (e : JsError)
  | poll (polling : Bool)
  | notificationCount (c : NotificationsCount)
  | notificationCountChanged (c : NotificationsCount)
  | stateChanged (s : NotifierState)
deriving DecidableEq, Repr

/-- Recognizes a `'notification-count:changed'` event. -/
def isChangedEvent : Event → Bool
  | .notificationCountChanged _ => true
  | _ => false

/-- A request issued by `fetch` in `getNotificationCount`, with the
headers the code sets. -/
structure HttpRequest where
  url : String
  referer : String
  origin : String
  talkToken : String
deriving DecidableEq, Repr

/-- Oracle for the one network call: either a response with a status and
a parsed JSON body, or a thrown transport failure. -/
inductive FetchResult where
  | response (status : Nat) (body : NotificationsCount)
  | failure (thrown : Thrown)
deriving DecidableEq, Repr

deriving instance DecidableEq for Except

/-- `Notifier.getNotificationCount`: throws `InvalidError('referer')` or
`InvalidError('token')` before touching the network, otherwise issues the
request; a non-200 status throws `new Error('Got non 200 response
status')`, a transport failure is rethrown as-is.  Returns the outcome
together with the list of requests issued. -/
def getNotificationCount (s : NotifierState) (fetch : FetchResult) :
    Except Thrown NotificationsCount × List HttpRequest :=
  let url := BASE_ENDPOINT ++ "/" ++ NOTIFICATION_COUNT_PATH
  if isFalsyOptStr s.options.referer then
    (.error (.errObj (.invalidError "referer")), [])
  else if isFalsyOptStr s.options.token then
    (.error (.errObj (.invalidError "token")), [])
  else
    let req : HttpRequest :=
      { url := url
        referer := s.options.referer.getD ""
        origin := s.options.referer.getD ""
        talkToken := s.options.token.getD "" }
    match fetch with
    | .failure t => (.error t, [req])
    | .response status body =>
      if status ≠ 200 then
        (.error (.errObj (.plainError "Got non 200 response status")), [req])
      else
        (.ok body, [req])

/-- One execution of the inner `poll` closure of
`Notifier.startPollingNotifications`: the cooperative `polling` check,
then fetch; on success emit `'notification-count'`, emit
`'notification-count:changed'` when the value differs (which synchronously
triggers the constructor's `'state:changed'` relay with the still
un-updated session), unconditionally assign `session.count = data` and
schedule the next poll; on a throw emit a single `'error'` event with the
normalized error and do not reschedule.  Returns (new session state,
emitted events, whether the next poll was scheduled). -/
def pollStep (s : NotifierState) (fetch : FetchResult) :
    NotifierState × List Event × Bool :=
  if !s.options.polling then (s, [], false)
  else
    match (getNotificationCount s fetch).1 with
    | .error t => (s, [Event.error (ensureError t)], false)
    | .ok data =>
      let events :=
        [Event.notificationCount data] ++
          (if data.rooms_count ≠ s.count.rooms_count then
            [Event.notificationCountChanged data, Event.stateChanged s]
          else [])
      ({ s with count := data }, events, true)

/-- `NotifierContext.handleNotificationCount`: suppress the reply when
`showIfZero` is false, `allowZeroMessages` is false and the count is 0;
otherwise reply `` `${count.rooms_count} rooms have new messages` ``.
Returns the list of messages delivered to the user. -/
def handleNotificationCount (s : NotifierState) (count : NotificationsCount)
    (showIfZero : Bool) : List String :=
  if !showIfZero && !s.options.allowZeroMessages && count.rooms_count == 0 then
    []
  else
    [toString count.rooms_count ++ " rooms have new messages"]

/-- `stopPollingNotifications`' effect on the session: with `commit` also
clear `pollingOnBoot`; always clear `polling`. -/
def stopSession (commit : Bool) (s : NotifierState) : NotifierState :=
  let s1 :=
    if commit then
      { s with options := { s.options with pollingOnBoot := false } }
    else s
  { s1 with options := { s1.options with polling := false } }

/-- One poll cycle composed with the relays `NotifierFactory.create`
registers: the `'notification-count'` listener forwards every successful
poll's count to `handleNotificationCount` (with `showIfZero = false`),
and the `'error'` listener calls `stopPollingNotifications(false)` and
replies with the formatted error.  Returns (new session state, messages
delivered to the user, whether the next poll was scheduled). -/
def pollCycleRelay (s : NotifierState) (fetch : FetchResult) :
    NotifierState × List String × Bool :=
  if !s.options.polling then (s, [], false)
  else
    match (getNotificationCount s fetch).1 with
    | .error t => (stopSession false s, [formatError (ensureError t)], false)
    | .ok data =>
      (({ s with count := data } : NotifierState),
        handleNotificationCount s data false, true)

/-- `DEFAULT_NOTIFIER_STATE` from the source. -/
def DEFAULT_NOTIFIER_STATE : NotifierState :=
  { count := { rooms_count := 0 }
    options :=
      { token := none
        referer := none
        interval := .num 60000
        allowZeroMessages := false
        polling := false
        pollingOnBoot := false } }

/-- `createNotifierState` (`structuredClone` of the default state). -/
def createNotifierState : NotifierState := DEFAULT_NOTIFIER_STATE

/-- Runtime identity of a `Notifier` object.  `nid` is the object's
identity (allocation order), `accessor` identifies which `getSession`
closure is currently bound (`updateSession` replaces it), and
`controllerGen` counts `new AbortController()` allocations, so it changes
exactly when the previous controller is discarded (on `start` and on
`stop`). -/
structure Notifier where
  nid : Nat
  accessor : Nat
  controllerGen : Nat
deriving DecidableEq, Repr

/-- Result of `Notifier.startPollingNotifications`. `pollLaunched` records
whether the first `poll()` was invoked immediately. -/
structure StartResult where
  notifier : Notifier
  session : NotifierState
  events : List Event
  pollLaunched : Bool
deriving DecidableEq, Repr

/-- `Notifier.startPollingNotifications(force)`: when already polling and
not forced, warn and return with no side effects; otherwise allocate a
fresh `AbortController`, set `polling` and `pollingOnBoot`, launch the
first poll immediately and emit `'poll' true`. -/
def startPollingNotifications (force : Bool) (n : Notifier)
    (s : NotifierState) : StartResult :=
  if s.options.polling && !force then
    { notifier := n, session := s, events := [], pollLaunched := false }
  else
    { notifier := { n with controllerGen := n.controllerGen + 1 }
      session :=
        { s with options := { s.options with polling := true, pollingOnBoot := true } }
      events := [Event.poll true]
      pollLaunched := true }

/-- Result of `Notifier.stopPollingNotifications`. -/
structure StopResult where
  notifier : Notifier
  session : NotifierState
  events : List Event
deriving DecidableEq, Repr

/-- `Notifier.stopPollingNotifications(commit)`: with `commit` clear
`pollingOnBoot`; always clear `polling`, abort the controller and replace
it with a fresh one, and emit `'poll' false`. -/
def stopPollingNotifications (commit : Bool) (n : Notifier)
    (s : NotifierState) : StopResult :=
  { notifier := { n with controllerGen := n.controllerGen + 1 }
    session := stopSession commit s
    events := [Event.poll false] }

/-- `NotifierFactory.registry` (`Map<number, Notifier>`) as an
association list, together with the allocation counter for `nid`. -/
structure FactoryState where
  registry : List (Int × Notifier)
  nextId : Nat
deriving DecidableEq, Repr

/-- `registry.get(cid)` / `registry.has(cid)`. -/
def registryFind : List (Int × Notifier) → Int → Option Notifier
  | [], _ => none
  | (k, n) :: rest, cid => if k = cid then some n else registryFind rest cid

/-- `registry.set(cid, n)`: replace the binding when present, append
otherwise. -/
def registrySet : List (Int × Notifier) → Int → Notifier → List (Int × Notifier)
  | [], cid, n => [(cid, n)]
  | (k, m) :: rest, cid, n =>
    if k = cid then (cid, n) :: rest else (k, m) :: registrySet rest cid n

/-- Result of `NotifierFactory.create`: the updated registry state, the
(possibly mutated) session, the returned notifier, whether a new
`Notifier` was constructed, whether the boot-resume `start(force=true)`
ran, and the chat messages sent by the factory itself. -/
structure CreateResult where
  factory : FactoryState
  session : NotifierState
  notifier : Notifier
  created : Bool
  resumed : Bool
  messages : List String
deriving DecidableEq, Repr

/-- `NotifierFactory.create`: if no notifier is registered for the chat
id, construct one bound to the supplied accessor, register it, and — when
the restored session says `pollingOnBoot` — immediately start it with
`force = true` and send `'Continue polling after reboot'`.  In every case
the registered notifier's accessor is rebound to the freshly supplied one
(`updateSession`) and that notifier returned. -/
def factoryCreate (cid : Int) (accessor : Nat) (fs : FactoryState)
    (s : NotifierState) : CreateResult :=
  match registryFind fs.registry cid with
  | some n =>
    let n' := { n with accessor := accessor }
    { factory := { fs with registry := registrySet fs.registry cid n' }
      session := s
      notifier := n'
      created := false
      resumed := false
      messages := [] }
  | none =>
    let n0 : Notifier := { nid := fs.nextId, accessor := accessor, controllerGen := 0 }
    let fs1 : FactoryState :=
      { registry := registrySet fs.registry cid n0, nextId := fs.nextId + 1 }
    if s.options.pollingOnBoot then
      let r := startPollingNotifications true n0 s
      { factory := { fs1 with registry := registrySet fs1.registry cid r.notifier }
        session := r.session
        notifier := r.notifier
        created := true
        resumed := true
        messages := ["Continue polling after reboot"] }
    else
      { factory := fs1
        session := s
        notifier := n0
        created := true
        resumed := false
        messages := [] }

/-- Outcome of `storage.read(key)` during boot: the parsed session or a
thrown store failure. -/
inductive ReadResult where
  | ok (s : NotifierState)
  | storeError (message : String)
deriving DecidableEq, Repr

/-- The top-level boot restore loop: `for (const key of keys) { const
session = await storage.read(key); ... NotifierFactory.create(ctx); await
bot.api.sendMessage(chatId, 'Bot booted'); }`.  There is no try/catch, so
a throw from `storage.read` propagates out of the loop, skipping every
remaining key.  Returns the final factory state and all chat messages
sent, or the propagated error. -/
def bootRestore : List (Int × ReadResult) → FactoryState →
    Except String (FactoryState × List String)
  | [], fs => .ok (fs, [])
  | (_, .storeError m) :: _, _ => .error m
  | (cid, .ok s) :: rest, fs =>
    let r := factoryCreate cid 0 fs s
    match bootRestore rest r.factory with
    | .error m => .error m
    | .ok (fs', msgs) => .ok (fs', r.messages ++ ["Bot booted"] ++ msgs)

/-- One field write through the `sessionProxy`, covering every writable
field of the state at every nesting depth (top-level `count`/`options`,
and each nested leaf reached through the recursively wrapped
sub-proxies). -/
inductive Write where
  | setCount (c : NotificationsCount)
  | setCountRooms (n : Int)
  | setOptions (o : NotifierOptions)
  | setToken (t : Option String)
  | setReferer (r : Option String)
  | setInterval (i : JsNum)
  | setAllowZero (b : Bool)
  | setPolling (b : Bool)
  | setPollingOnBoot (b : Bool)
deriving DecidableEq, Repr

/-- The in-memory effect of a field write (`Reflect.set` on the raw
target object). -/
def applyWrite : Write → NotifierState → NotifierState
  | .setCount c, s => { s with count := c }
  | .setCountRooms n, s => { s with count := { s.count with rooms_count := n } }
  | .setOptions o, s => { s with options := o }
  | .setToken t, s => { s with options := { s.options with token := t } }
  | .setReferer r, s => { s with options := { s.options with referer := r } }
  | .setInterval i, s => { s with options := { s.options with interval := i } }
  | .setAllowZero b, s => { s with options := { s.options with allowZeroMessages := b } }
  | .setPolling b, s => { s with options := { s.options with polling := b } }
  | .setPollingOnBoot b, s => { s with options := { s.options with pollingOnBoot := b } }

/-- The in-memory session blob together with the State Store's record for
this session (`none` when nothing has been written yet). -/
structure ProxyWorld where
  mem : NotifierState
  store : Option NotifierState
deriving DecidableEq, Repr

/-- The `set` trap of `sessionProxy`: perform `Reflect.set`, then invoke
`trigger`, which writes the whole current session to the store
(`storage.write(ctx.chatId.toString(), ctx.session)`). -/
def proxySet (pw : ProxyWorld) (w : Write) : ProxyWorld :=
  let mem' := applyWrite w pw.mem
  { mem := mem', store := some mem' }

/-- A readable path through the proxy (top-level fields and the nested
leaves reached through the recursively wrapped sub-proxies). -/
inductive ReadPath where
  | count
  | countRooms
  | options
  | token
  | referer
  | interval
  | allowZero
  | polling
  | pollingOnBoot
deriving DecidableEq, Repr

/-- A value read back through the proxy. -/
inductive ProxyValue where
  | vCount (c : NotificationsCount)
  | vInt (n : Int)
  | vOptStr (s : Option String)
  | vNum (j : JsNum)
  | vBool (b : Bool)
  | vOptions (o : NotifierOptions)
deriving DecidableEq, Repr

/-- The `get` trap of `sessionProxy`: wrap nested objects in a fresh
sub-proxy, return primitives via `Reflect.get`; no write to the store
happens on either path. -/
def proxyGet (pw : ProxyWorld) : ReadPath → ProxyWorld × ProxyValue
  | .count => (pw, .vCount pw.mem.count)
  | .countRooms => (pw, .vInt pw.mem.count.rooms_count)
  | .options => (pw, .vOptions pw.mem.options)
  | .token => (pw, .vOptStr pw.mem.options.token)
  | .referer => (pw, .vOptStr pw.mem.options.referer)
  | .interval => (pw, .vNum pw.mem.options.interval)
  | .allowZero => (pw, .vBool pw.mem.options.allowZeroMessages)
  | .polling => (pw, .vBool pw.mem.options.polling)
  | .pollingOnBoot => (pw, .vBool pw.mem.options.pollingOnBoot)

/-- The `/interval` command handler: `const interval = Number(ctx.match);
if (Number.isNaN(interval) && interval > 0) throw new Error('Interval
must be a non negative number > 0'); ctx.session.options.interval =
interval; await ctx.reply('Interval successfully set');`.  The argument
is the already-converted `Number(ctx.match)`. -/
def intervalCommand (input : JsNum) (s : NotifierState) :
    Except JsError (NotifierState × List String) :=
  let interval := input
  if jsIsNaN interval && jsGtZero interval then
    .error (.plainError "Interval must be a non negative number > 0")
  else
    .ok ({ s with options := { s.options with interval := interval } },
      ["Interval successfully set"])

/-- The `/check` command handler: call `getNotificationCount` (an error
propagates to the caller before any state change), then write the fetched
value through the session proxy (`ctx.session.count.rooms_count =
count.rooms_count`) and reply via `handleNotificationCount(count, true)`. -/
def checkCommand (pw : ProxyWorld) (fetch : FetchResult) :
    Except Thrown (ProxyWorld × List String) :=
  match (getNotificationCount pw.mem fetch).1 with
  | .error t => .error t
  | .ok count =>
    let pw' := proxySet pw (.setCountRooms count.rooms_count)
    .ok (pw', handleNotificationCount pw'.mem count true)

/-- A fully configured session used as a concrete input by several
witnesses: credentials set, polling active, count 0. -/
def configuredState : NotifierState :=
  { count := { rooms_count := 0 }
    options :=
      { token := some "tkn"
        referer := some "https://chat.ktalk.ru"
        interval := .num 60000
        allowZeroMessages := false
        polling := true
        pollingOnBoot := true } }

theorem foldl_proxySet_store (ws : List Write) (pw : ProxyWorld)
    (h : pw.store = some pw.mem) :
    (ws.foldl proxySet pw).store = some (ws.foldl proxySet pw).mem := by
  induction ws generalizing pw with
  | nil => exact h
  | cons w ws ih => exact ih (proxySet pw w) rfl

theorem registryFind_registrySet_same (cid : Int) (n : Notifier) :
    ∀ (reg : List (Int × Notifier)),
      registryFind (registrySet reg cid n) cid = some n
  | [] => by simp [registrySet, registryFind]
  | (k, m) :: rest => by
    by_cases hk : k = cid
    · simp [registrySet, registryFind, hk]
    · simp [registrySet, registryFind, hk,
        registryFind_registrySet_same cid n rest]

theorem registrySet_length_found (cid : Int) (n : Notifier) :
    ∀ (reg : List (Int × Notifier)), (registryFind reg cid).isSome = true →
      (registrySet reg cid n).length = reg.length
  | [], h => by simp [registryFind] at h
  | (k, m) :: rest, h => by
    by_cases hk : k = cid
    · simp [registrySet, hk]
    · simp only [registryFind, hk, if_false] at h
      simp [registrySet, registryFind, hk, registrySet_length_found cid n rest h]

/-- C1 (counterexample): with `allowZeroMessages = false`, a poll cycle
whose fetched `rooms_count` (3) equals the stored `count.rooms_count` (3)
still delivers a user notification, because the factory's relay listens
to the unconditional `'notification-count'` event rather than
`'notification-count:changed'`. -/
theorem C1_same_count_still_notifies :
    (pollCycleRelay { configuredState with count := { rooms_count := 3 } }
      (.response 200 { rooms_count := 3 })).2.1 =
      ["3 rooms have new messages"] := by decide

/-- C1 (amended): with `allowZeroMessages = false` and polling active,
every successful poll cycle delivers no notification when the fetched
`rooms_count` is 0 and exactly one notification when it is nonzero —
regardless of whether it equals the stored `count.rooms_count` — and the
stored count is updated to the fetched value. -/
theorem C1_relay_delivers_per_poll (s : NotifierState) (fetch : FetchResult)
    (data : NotificationsCount)
    (hp : s.options.polling = true)
    (hz : s.options.allowZeroMessages = false)
    (hok : (getNotificationCount s fetch).1 = .ok data) :
    (pollCycleRelay s fetch).2.1 =
      (if data.rooms_count = 0 then []
       else [toString data.rooms_count ++ " rooms have new messages"]) ∧
    (pollCycleRelay s fetch).1.count = data ∧
    (pollCycleRelay s fetch).2.2 = true := by
  by_cases h0 : data.rooms_count = 0 <;>
    simp [pollCycleRelay, hp, hok, handleNotificationCount, hz, h0]

theorem C1_relay_delivers_per_poll_witness :
    configuredState.options.polling = true ∧
    configuredState.options.allowZeroMessages = false ∧
    (getNotificationCount configuredState (.response 200 { rooms_count := 3 })).1 =
      .ok { rooms_count := 3 } ∧
    (pollCycleRelay configuredState (.response 200 { rooms_count := 3 })).2.1 =
      (if ({ rooms_count := 3 } : NotificationsCount).rooms_count = 0 then []
       else [toString ({ rooms_count := 3 } : NotificationsCount).rooms_count ++
          " rooms have new messages"]) ∧
    (pollCycleRelay configuredState (.response 200 { rooms_count := 3 })).1.count =
      { rooms_count := 3 } ∧
    (pollCycleRelay configuredState (.response 200 { rooms_count := 3 })).2.2 = true :=
  ⟨rfl, rfl, by decide,
    C1_relay_delivers_per_poll configuredState (.response 200 { rooms_count := 3 })
      { rooms_count := 3 } rfl rfl (by decide)⟩

/-- C2 (code bug): the guard of the `/interval` command,
`Number.isNaN(interval) && interval > 0`, is unsatisfiable (`NaN > 0` is
false, and the conjunction is false whenever `isNaN` is), so the handler
never throws: every input — including `-5` and `NaN` — is written to
`options.interval` and reported as success, contradicting the handler's
own error message `'Interval must be a non negative number > 0'`. -/
theorem C2_interval_guard_never_fires :
    (∀ (input : JsNum) (s : NotifierState),
      intervalCommand input s =
        .ok ({ s with options := { s.options with interval := input } },
          ["Interval successfully set"])) ∧
    intervalCommand (.num (-5)) DEFAULT_NOTIFIER_STATE =
      .ok ({ DEFAULT_NOTIFIER_STATE with
              options := { DEFAULT_NOTIFIER_STATE.options with interval := .num (-5) } },
        ["Interval successfully set"]) ∧
    intervalCommand .nan DEFAULT_NOTIFIER_STATE =
      .ok ({ DEFAULT_NOTIFIER_STATE with
              options := { DEFAULT_NOTIFIER_STATE.options with interval := .nan } },
        ["Interval successfully set"]) := by
  refine ⟨fun input s => ?_, by decide, by decide⟩
  cases input <;> simp [intervalCommand, jsIsNaN, jsGtZero]

/-- C3 (counterexample): the boot restore loop has no per-session
try/catch, so a store error while reading session 2 propagates and aborts
restoration, leaving session 3 unrestored. -/
theorem C3_store_error_aborts_restore :
    bootRestore
      [(1, .ok DEFAULT_NOTIFIER_STATE),
       (2, .storeError "EACCES: permission denied"),
       (3, .ok DEFAULT_NOTIFIER_STATE)]
      { registry := [], nextId := 0 } =
      .error "EACCES: permission denied" := by decide

/-- C3 (amended): a store with zero sessions restores as a no-op, but a
store error while reading one session's record is not caught per-session:
it propagates out of the boot loop and aborts restoration of every
remaining session, wherever in the enumeration it occurs. -/
theorem C3_restore_error_propagates (fs : FactoryState) (cid cid2 : Int)
    (m : String) (rest : List (Int × ReadResult)) (s : NotifierState) :
    bootRestore [] fs = .ok (fs, []) ∧
    bootRestore ((cid, .storeError m) :: rest) fs = .error m ∧
    bootRestore ((cid, .ok s) :: (cid2, .storeError m) :: rest) fs = .error m := by
  refine ⟨rfl, rfl, ?_⟩
  simp [bootRestore]

/-- C4: in a successful poll cycle (polling active, fetch returned
`data`), the `'notification-count:changed'` event is emitted exactly once
when `data.rooms_count` differs from the stored `count.rooms_count` and
zero times when they are equal, and `count` is unconditionally updated to
the fetched value with the next poll scheduled. -/
theorem C4_changed_event_iff_different (s : NotifierState) (fetch : FetchResult)
    (data : NotificationsCount)
    (hp : s.options.polling = true)
    (hok : (getNotificationCount s fetch).1 = .ok data) :
    ((pollStep s fetch).2.1.countP isChangedEvent =
      if data.rooms_count = s.count.rooms_count then 0 else 1) ∧
    (pollStep s fetch).1.count = data ∧
    (pollStep s fetch).2.2 = true := by
  by_cases hc : data.rooms_count = s.count.rooms_count <;>
    simp [pollStep, hp, hok, hc, isChangedEvent]

theorem C4_changed_event_iff_different_witness :
    configuredState.options.polling = true ∧
    (getNotificationCount configuredState (.response 200 { rooms_count := 3 })).1 =
      .ok { rooms_count := 3 } ∧
    ((pollStep configuredState (.response 200 { rooms_count := 3 })).2.1.countP
        isChangedEvent =
      if ({ rooms_count := 3 } : NotificationsCount).rooms_count =
          configuredState.count.rooms_count then 0 else 1) ∧
    (pollStep configuredState (.response 200 { rooms_count := 3 })).1.count =
      { rooms_count := 3 } ∧
    (pollStep configuredState (.response 200 { rooms_count := 3 })).2.2 = true :=
  ⟨rfl, by decide,
    C4_changed_event_iff_different configuredState (.response 200 { rooms_count := 3 })
      { rooms_count := 3 } rfl (by decide)⟩

/-- C5: `stop(commit=true)` clears both `pollingOnBoot` and `polling`, so
a restart (factory creation against a fresh registry with the persisted
state) does not auto-resume; `stop(commit=false)` clears only `polling`,
so when `pollingOnBoot` was `true` a restart auto-resumes polling. -/
theorem C5_stop_commit_semantics (n : Notifier) (s : NotifierState)
    (cid : Int) (a : Nat)
    (h : s.options.pollingOnBoot = true) :
    ((stopPollingNotifications true n s).session.options.pollingOnBoot = false ∧
     (stopPollingNotifications true n s).session.options.polling = false ∧
     (factoryCreate cid a { registry := [], nextId := 0 }
        (stopPollingNotifications true n s).session).resumed = false ∧
     (factoryCreate cid a { registry := [], nextId := 0 }
        (stopPollingNotifications true n s).session).session.options.polling = false) ∧
    ((stopPollingNotifications false n s).session.options.polling = false ∧
     (stopPollingNotifications false n s).session.options.pollingOnBoot = true ∧
     (factoryCreate cid a { registry := [], nextId := 0 }
        (stopPollingNotifications false n s).session).resumed = true ∧
     (factoryCreate cid a { registry := [], nextId := 0 }
        (stopPollingNotifications false n s).session).session.options.polling = true) := by
  simp [stopPollingNotifications, stopSession, factoryCreate, registryFind,
    registrySet, startPollingNotifications, h]

theorem C5_stop_commit_semantics_witness :
    configuredState.options.pollingOnBoot = true ∧
    (stopPollingNotifications true { nid := 0, accessor := 0, controllerGen := 0 }
      configuredState).session.options.pollingOnBoot = false ∧
    (factoryCreate 1 0 { registry := [], nextId := 0 }
      (stopPollingNotifications true { nid := 0, accessor := 0, controllerGen := 0 }
        configuredState).session).resumed = false ∧
    (stopPollingNotifications false { nid := 0, accessor := 0, controllerGen := 0 }
      configuredState).session.options.pollingOnBoot = true ∧
    (factoryCreate 1 0 { registry := [], nextId := 0 }
      (stopPollingNotifications false { nid := 0, accessor := 0, controllerGen := 0 }
        configuredState).session).resumed = true :=
  have h := C5_stop_commit_semantics { nid := 0, accessor := 0, controllerGen := 0 }
    configuredState 1 0 rfl
  ⟨rfl, h.1.1, h.1.2.2.1, h.2.2.1, h.2.2.2.1⟩

/-- C6: every write through the session proxy, at any nesting depth,
applies the mutation to the in-memory state and synchronously persists
the whole post-mutation state, so after any nonempty sequence of writes
the store's record equals the in-memory state; reads through the proxy
never change the world (and hence never persist). -/
theorem C6_write_through (pw : ProxyWorld) (w : Write) (ws : List Write)
    (p : ReadPath) :
    (proxySet pw w).mem = applyWrite w pw.mem ∧
    (proxySet pw w).store = some (applyWrite w pw.mem) ∧
    ((w :: ws).foldl proxySet pw).store = some (((w :: ws).foldl proxySet pw).mem) ∧
    (proxyGet pw p).1 = pw := by
  refine ⟨rfl, rfl, foldl_proxySet_store ws (proxySet pw w) rfl, ?_⟩
  cases p <;> rfl

/-- C7: `getNotificationCount` with a falsy `referer` fails with
`InvalidError('referer')` issuing no request; with a truthy `referer` but
falsy `token` it fails with `InvalidError('token')` issuing no request;
with both set it issues exactly one request. -/
theorem C7_config_error_no_request (s : NotifierState) (fetch : FetchResult) :
    (isFalsyOptStr s.options.referer = true →
      getNotificationCount s fetch =
        (.error (.errObj (.invalidError "referer")), [])) ∧
    (isFalsyOptStr s.options.referer = false →
      isFalsyOptStr s.options.token = true →
      getNotificationCount s fetch =
        (.error (.errObj (.invalidError "token")), [])) ∧
    (isFalsyOptStr s.options.referer = false →
      isFalsyOptStr s.options.token = false →
      (getNotificationCount s fetch).2.length = 1) := by
  refine ⟨fun h1 => ?_, fun h1 h2 => ?_, fun h1 h2 => ?_⟩
  · simp [getNotificationCount, h1]
  · simp [getNotificationCount, h1, h2]
  · cases fetch with
    | response status body =>
      simp only [getNotificationCount, h1, h2, Bool.false_eq_true, if_false]
      split <;> simp
    | failure t => simp [getNotificationCount, h1, h2]

theorem C7_config_error_no_request_witness :
    isFalsyOptStr DEFAULT_NOTIFIER_STATE.options.referer = true ∧
    getNotificationCount DEFAULT_NOTIFIER_STATE (.response 200 { rooms_count := 1 }) =
      (.error (.errObj (.invalidError "referer")), []) :=
  ⟨rfl, (C7_config_error_no_request DEFAULT_NOTIFIER_STATE
      (.response 200 { rooms_count := 1 })).1 rfl⟩

/-- C8 (counterexample): the `/check` command path is not side-effect-free
on the persisted count: after `getNotificationCount` returns 5 it writes
`session.count.rooms_count = 5` through the proxy, changing both the
in-memory state and the store's record, so the poll loop is not the only
updater of the persisted count. -/
theorem C8_check_updates_stored_count :
    checkCommand { mem := configuredState, store := some configuredState }
      (.response 200 { rooms_count := 5 }) =
      .ok ({ mem := { configuredState with count := { rooms_count := 5 } },
             store := some { configuredState with count := { rooms_count := 5 } } },
        ["5 rooms have new messages"]) ∧
    ({ configuredState with count := { rooms_count := 5 } } : NotifierState) ≠
      configuredState := ⟨by decide, by decide⟩

/-- C8 (amended): `getNotificationCount` itself performs no state
mutation (its embedding consumes the session read-only), so the entire
state effect of the `/check` command is the single explicit proxy write
of the fetched value done by the command handler after `getCount`
returns; that write does not touch `options`.  The persisted count is
therefore updated by the check command as well, not only by the poll
loop. -/
theorem C8_getcount_no_mutation (pw : ProxyWorld) (fetch : FetchResult)
    (data : NotificationsCount)
    (hok : (getNotificationCount pw.mem fetch).1 = .ok data) :
    checkCommand pw fetch =
      .ok (proxySet pw (.setCountRooms data.rooms_count),
        handleNotificationCount (applyWrite (.setCountRooms data.rooms_count) pw.mem)
          data true) ∧
    (proxySet pw (.setCountRooms data.rooms_count)).mem.options = pw.mem.options := by
  refine ⟨?_, rfl⟩
  simp [checkCommand, hok, proxySet]

theorem C8_getcount_no_mutation_witness :
    (getNotificationCount configuredState (.response 200 { rooms_count := 5 })).1 =
      .ok { rooms_count := 5 } ∧
    checkCommand { mem := configuredState, store := some configuredState }
        (.response 200 { rooms_count := 5 }) =
      .ok (proxySet { mem := configuredState, store := some configuredState }
          (.setCountRooms (5 : Int)),
        handleNotificationCount
          (applyWrite (.setCountRooms (5 : Int)) configuredState)
          { rooms_count := 5 } true) ∧
    (proxySet { mem := configuredState, store := some configuredState }
      (.setCountRooms (5 : Int))).mem.options = configuredState.options :=
  ⟨by decide,
    C8_getcount_no_mutation { mem := configuredState, store := some configuredState }
      (.response 200 { rooms_count := 5 }) { rooms_count := 5 } (by decide)⟩

/-- C9: for a chat id with no registered notifier, the first
`NotifierFactory.create` constructs and registers a notifier; a second
`create` for the same id constructs nothing and starts nothing — it
returns the same notifier (same identity, same abort controller, hence
no interrupted loop or reset timer), only rebinding its session accessor
to the freshly supplied one, leaving the supplied session untouched and
the registry's size and allocation counter unchanged. -/
theorem C9_getOrCreate_idempotent (cid : Int) (a1 a2 : Nat) (fs : FactoryState)
    (s1 s2 : NotifierState)
    (h : registryFind fs.registry cid = none) :
    (factoryCreate cid a1 fs s1).created = true ∧
    registryFind (factoryCreate cid a1 fs s1).factory.registry cid =
      some (factoryCreate cid a1 fs s1).notifier ∧
    (factoryCreate cid a2 (factoryCreate cid a1 fs s1).factory s2).created = false ∧
    (factoryCreate cid a2 (factoryCreate cid a1 fs s1).factory s2).resumed = false ∧
    (factoryCreate cid a2 (factoryCreate cid a1 fs s1).factory s2).notifier.nid =
      (factoryCreate cid a1 fs s1).notifier.nid ∧
    (factoryCreate cid a2 (factoryCreate cid a1 fs s1).factory s2).notifier.controllerGen =
      (factoryCreate cid a1 fs s1).notifier.controllerGen ∧
    (factoryCreate cid a2 (factoryCreate cid a1 fs s1).factory s2).notifier.accessor =
      a2 ∧
    (factoryCreate cid a2 (factoryCreate cid a1 fs s1).factory s2).session = s2 ∧
    registryFind
        (factoryCreate cid a2 (factoryCreate cid a1 fs s1).factory s2).factory.registry
        cid =
      some (factoryCreate cid a2 (factoryCreate cid a1 fs s1).factory s2).notifier ∧
    (factoryCreate cid a2 (factoryCreate cid a1 fs s1).factory s2).factory.registry.length =
      (factoryCreate cid a1 fs s1).factory.registry.length ∧
    (factoryCreate cid a2 (factoryCreate cid a1 fs s1).factory s2).factory.nextId =
      (factoryCreate cid a1 fs s1).factory.nextId := by
  by_cases hb : s1.options.pollingOnBoot <;>
    simp [factoryCreate, h, hb, startPollingNotifications,
      registryFind_registrySet_same, registrySet_length_found]

theorem C9_getOrCreate_idempotent_witness :
    registryFind (FactoryState.mk [] 0).registry 1 = none ∧
    (factoryCreate 1 5 { registry := [], nextId := 0 } configuredState).created = true ∧
    (factoryCreate 1 7
      (factoryCreate 1 5 { registry := [], nextId := 0 } configuredState).factory
      DEFAULT_NOTIFIER_STATE).created = false ∧
    (factoryCreate 1 7
      (factoryCreate 1 5 { registry := [], nextId := 0 } configuredState).factory
      DEFAULT_NOTIFIER_STATE).notifier.nid =
      (factoryCreate 1 5 { registry := [], nextId := 0 } configuredState).notifier.nid ∧
    (factoryCreate 1 7
      (factoryCreate 1 5 { registry := [], nextId := 0 } configuredState).factory
      DEFAULT_NOTIFIER_STATE).notifier.accessor = 7 :=
  have h := C9_getOrCreate_idempotent 1 5 7 { registry := [], nextId := 0 }
    configuredState DEFAULT_NOTIFIER_STATE rfl
  ⟨rfl, h.1, h.2.2.1, h.2.2.2.2.1, h.2.2.2.2.2.2.1⟩

/-- C10: when polling is active and `getNotificationCount` throws, the
poll cycle leaves the session state unchanged, emits exactly one event —
an `'error'` event carrying the normalized error — and does not schedule
the next poll. -/
theorem C10_poll_error_atomic (s : NotifierState) (fetch : FetchResult) (t : Thrown)
    (hp : s.options.polling = true)
    (herr : (getNotificationCount s fetch).1 = .error t) :
    pollStep s fetch = (s, [Event.error (ensureError t)], false) := by
  simp [pollStep, hp, herr]

theorem C10_poll_error_atomic_witness :
    configuredState.options.polling = true ∧
    (getNotificationCount configuredState (.failure (.nonError "boom"))).1 =
      .error (.nonError "boom") ∧
    pollStep configuredState (.failure (.nonError "boom")) =
      (configuredState, [Event.error (ensureError (.nonError "boom"))], false) :=
  ⟨rfl, by decide,
    C10_poll_error_atomic configuredState (.failure (.nonError "boom"))
      (.nonError "boom") rfl (by decide)⟩
